import Mathlib

/-!
Verification of `src/reduxBestPractices.js`, a documentation-only JavaScript
module. The file is a linear sequence of comment blocks (one line comment
followed by ten block comments), with illustrative Redux usage snippets
embedded inside the comments. This development embeds the module at three
levels:

1. a line-level classification of the 163 source lines (blank, comment, code);
2. a module-item level embedding of the top-level structure of the file,
   together with a small-step evaluation semantics for module items;
3. a deep embedding of the JavaScript snippets that appear inside the
   comments, with a syntactic well-formedness checker, and shallow
   embeddings of the example functions (addTodo, logger, getVisibleTodos)
   and of the normalized example state.
-/

set_option maxRecDepth 8192

namespace Redux

/-- Classification of a physical source line of the file. -/
inductive LineKind where
  | blank
  | commentLine
  | codeLine
  deriving DecidableEq, Repr

/-- True when the line carries no executable code: it is blank or lies
inside a comment. -/
def isCommentOrBlank : LineKind → Bool
  | .blank => true
  | .commentLine => true
  | .codeLine => false

/-- True when the line lies inside a comment (a blank line does not). -/
def isCommentLine : LineKind → Bool
  | .commentLine => true
  | _ => false

/-- Line-by-line classification of `src/reduxBestPractices.js`:
line 1 is a line comment, followed by ten block comments
(lines 3-11, 13-30, 32-48, 50-68, 70-83, 85-97, 99-117, 119-135, 137-156,
158-163) separated by single blank lines (lines 2, 12, 31, 49, 69, 84, 98,
118, 136, 157). 163 lines in total; no line holds code. -/
def fileLineKinds : List LineKind :=
  [.commentLine, .blank]
  ++ List.replicate 9 .commentLine ++ [.blank]
  ++ List.replicate 18 .commentLine ++ [.blank]
  ++ List.replicate 17 .commentLine ++ [.blank]
  ++ List.replicate 19 .commentLine ++ [.blank]
  ++ List.replicate 14 .commentLine ++ [.blank]
  ++ List.replicate 13 .commentLine ++ [.blank]
  ++ List.replicate 19 .commentLine ++ [.blank]
  ++ List.replicate 17 .commentLine ++ [.blank]
  ++ List.replicate 20 .commentLine ++ [.blank]
  ++ List.replicate 6 .commentLine

/-- A top-level item of a JavaScript module, as needed to embed this file:
comments, top-level bindings, exported bindings, statements with console
output, and throw statements. Only the comment constructors occur in
`reduxBestPracticesItems`; the others are the semantic alternatives a
module item could have taken. -/
inductive JsModuleItem where
  | lineComment (text : String)
  | blockComment (sectionTitle : String)
  | topLevelBinding (name : String)
  | exportBinding (name : String)
  | sideEffectStmt (output : String)
  | throwStmt (message : String)
  deriving DecidableEq, Repr

/-- The top-level structure of `src/reduxBestPractices.js`: one line comment
and the ten documentation blocks, in file order. -/
def reduxBestPracticesItems : List JsModuleItem :=
  [ .lineComment "reduxBestPractices.js",
    .blockComment "Redux Best Practices / Introduction",
    .blockComment "State Structure",
    .blockComment "Actions",
    .blockComment "Reducers",
    .blockComment "Store",
    .blockComment "Middleware",
    .blockComment "Connecting Components",
    .blockComment "Selectors",
    .blockComment "Testing",
    .blockComment "Conclusion" ]

/-- True when the item is a comment. -/
def isCommentItem : JsModuleItem → Bool
  | .lineComment _ => true
  | .blockComment _ => true
  | _ => false

/-- True when the item executes at module evaluation time. -/
def isExecutableItem (i : JsModuleItem) : Bool :=
  !isCommentItem i

/-- Names bound at the top level of a module. -/
def definedBindings (items : List JsModuleItem) : List String :=
  items.filterMap fun
    | .topLevelBinding n => some n
    | .exportBinding n => some n
    | _ => none

/-- Names exported by a module. -/
def moduleExports (items : List JsModuleItem) : List String :=
  items.filterMap fun
    | .exportBinding n => some n
    | _ => none

/-- The observable state a module evaluation could touch: console output,
the module binding table, and uncaught raised errors. -/
structure World where
  console : List String
  bindings : List String
  raised : List String
  deriving DecidableEq, Repr

/-- Effect of evaluating a single module item on the world. Comments are
inert; the other item kinds record their effect. -/
def execItem : JsModuleItem → World → World
  | .lineComment _, w => w
  | .blockComment _, w => w
  | .topLevelBinding n, w => { w with bindings := w.bindings ++ [n] }
  | .exportBinding n, w => { w with bindings := w.bindings ++ [n] }
  | .sideEffectStmt out, w => { w with console := w.console ++ [out] }
  | .throwStmt m, w => { w with raised := w.raised ++ [m] }

/-- Evaluating (importing) a module: run its items left to right. -/
def runModule (items : List JsModuleItem) (w : World) : World :=
  items.foldl (fun acc i => execItem i acc) w

/-- Errors a module evaluation could raise. -/
inductive JsError where
  | thrown (message : String)
  deriving DecidableEq, Repr

/-- Fallible evaluation of one module item: only a throw statement errors. -/
def evalItemE : JsModuleItem → Except JsError Unit
  | .throwStmt m => .error (.thrown m)
  | _ => .ok ()

/-- Fallible evaluation of a whole module, stopping at the first error. -/
def evalModuleE : List JsModuleItem → Except JsError Unit
  | [] => .ok ()
  | i :: rest => (evalItemE i).bind fun _ => evalModuleE rest

/-- True when evaluating the item succeeds without an error. -/
def evalItemOk (i : JsModuleItem) : Bool :=
  match evalItemE i with
  | .ok _ => true
  | .error _ => false

/-- The action-type constant from the Actions example
(actionTypes.js: export const ADD_TODO = 'ADD_TODO'). -/
def ADD_TODO : String := "ADD_TODO"

/-- The plain data record produced by the addTodo action creator: an object
literal with exactly the two fields type and payload. -/
structure ReduxAction where
  type : String
  payload : String
  deriving DecidableEq, Repr

/-- The action creator from the Actions example
(actions.js: export const addTodo = (text) => ({ type: ADD_TODO, payload: text })). -/
def addTodo (text : String) : ReduxAction :=
  { type := ADD_TODO, payload := text }

/-- A todo item as used by the Selectors example: getVisibleTodos reads only
the completed field; text stands for the rest of the record. -/
structure Todo where
  text : String
  completed : Bool
  deriving DecidableEq, Repr

/-- A user record from the State Structure normalized example:
{ id: ..., name: ... }. -/
structure UserRecord where
  id : String
  name : String
  deriving DecidableEq, Repr

/-- The users slice of the normalized example: byId is the lookup table
(an association list keyed by id) and allIds the list of ids. -/
structure UsersState where
  byId : List (String × UserRecord)
  allIds : List String
  deriving DecidableEq, Repr

/-- The application state shape the documentation examples read from:
state.todos (Selectors, Connecting Components) and state.users
(State Structure example, usersReducer slice of the root reducer). -/
structure AppState where
  todos : List Todo
  users : UsersState
  deriving DecidableEq, Repr

/-- The concrete normalized users state shown in the State Structure example:
byId maps the id 1 to John and the id 2 to Jane, allIds is the id list. -/
def exampleUsers : UsersState :=
  { byId := [("1", { id := "1", name := "John" }), ("2", { id := "2", name := "Jane" })],
    allIds := ["1", "2"] }

/-- The input selector from the Selectors example:
const getTodos = (state) => state.todos. -/
def getTodos (state : AppState) : List Todo :=
  state.todos

/-- The reselect createSelector combinator for a single input selector,
shallowly embedded as plain composition; the memoization the external
reselect library adds is omitted, as the claims direct. -/
def createSelector {σ α β : Type} (input : σ → α) (combine : α → β) : σ → β :=
  fun state => combine (input state)

/-- The memoized selector from the Selectors example:
getVisibleTodos = createSelector([getTodos], (todos) => todos.filter(todo => !todo.completed)). -/
def getVisibleTodos : AppState → List Todo :=
  createSelector getTodos (fun todos => todos.filter (fun todo => !todo.completed))

/-- Result of a middleware step together with the console lines it logged:
console output is modelled as a writer-style log, paired with the value the
middleware returns. The log entries pair the format string of console.log
with the action it printed. -/
structure Logged (α β : Type) where
  log : List (String × α)
  value : β
  deriving Repr

/-- The logging middleware from the Middleware example:
const logger = store => next => action => { console.log(...); return next(action); }.
The console.log call becomes the single log entry; the returned value is
next(action). -/
def logger {σ α β : Type} (store : σ) (next : α → β) (action : α) : Logged α β :=
  { log := [("Dispatching:", action)], value := next action }

mutual

/-- Deep embedding of the JavaScript expressions appearing in the embedded
examples: identifiers, string literals, object and array literals, arrow
functions, const-in-block bindings, calls, member access, boolean negation,
and a two-statement block body (statement; return expression). -/
inductive JsExpr where
  | ident (name : String)
  | strLit (value : String)
  | objLit (fields : JsFields)
  | arrLit (elems : JsArgs)
  | arrow (params : List String) (body : JsExpr)
  | letConst (name : String) (value : JsExpr) (body : JsExpr)
  | call (fn : JsExpr) (args : JsArgs)
  | member (obj : JsExpr) (prop : String)
  | notE (e : JsExpr)
  | seqE (first : JsExpr) (ret : JsExpr)

/-- Field list of an object literal. -/
inductive JsFields where
  | nil
  | cons (key : String) (value : JsExpr) (rest : JsFields)

/-- Argument list of a call, or element list of an array literal. -/
inductive JsArgs where
  | nil
  | cons (head : JsExpr) (rest : JsArgs)

end

/-- Top-level statements of the embedded example snippets. -/
inductive JsStmt where
  | importNamed (names : List String) (source : String)
  | importDefault (name : String) (source : String)
  | constDecl (name : String) (value : JsExpr)
  | exportConst (name : String) (value : JsExpr)
  | exportDefault (value : JsExpr)
  | exprStmt (value : JsExpr)

/-- Characters allowed to start a JavaScript identifier. -/
def isJsIdentStart (c : Char) : Bool :=
  c.isAlpha || c = '_' || c = '$'

/-- Characters allowed after the first character of an identifier. -/
def isJsIdentChar (c : Char) : Bool :=
  c.isAlphanum || c = '_' || c = '$'

/-- JavaScript reserved words, which may not be used as identifiers. -/
def jsReservedWords : List String :=
  ["break", "case", "catch", "class", "const", "continue", "debugger",
   "default", "delete", "do", "else", "enum", "export", "extends", "false",
   "finally", "for", "function", "if", "implements", "in", "instanceof",
   "interface", "let", "new", "null", "package", "private", "protected",
   "public", "return", "static", "super", "switch", "this", "throw", "true",
   "try", "typeof", "var", "void", "while", "with", "yield", "await"]

/-- A syntactically valid JavaScript identifier: nonempty, a legal start
character, legal continuation characters, and not a reserved word. -/
def isJsIdent (s : String) : Bool :=
  match s.data with
  | [] => false
  | c :: cs => isJsIdentStart c && cs.all isJsIdentChar && !jsReservedWords.contains s

/-- A syntactically valid object-literal property key: an identifier or a
nonempty digit string (the normalized example keys its byId table with the
string keys 1 and 2). -/
def isJsPropKey (s : String) : Bool :=
  isJsIdent s || (!s.isEmpty && s.data.all Char.isDigit)

/-- True when the strings in the list are pairwise distinct. -/
def distinctStrings : List String → Bool
  | [] => true
  | x :: xs => !xs.contains x && distinctStrings xs

/-- Keys of an object-literal field list. -/
def fieldKeys : JsFields → List String
  | .nil => []
  | .cons k _ rest => k :: fieldKeys rest

mutual

/-- Syntactic well-formedness of an expression: identifiers and member names
are legal identifiers, object keys are legal and pairwise distinct, arrow
parameters are legal and pairwise distinct, and all subexpressions are
well-formed. -/
def wfExpr : JsExpr → Bool
  | .ident n => isJsIdent n
  | .strLit _ => true
  | .objLit fs => wfFields fs && distinctStrings (fieldKeys fs)
  | .arrLit es => wfArgs es
  | .arrow ps b => ps.all isJsIdent && distinctStrings ps && wfExpr b
  | .letConst n v b => isJsIdent n && wfExpr v && wfExpr b
  | .call f as => wfExpr f && wfArgs as
  | .member o p => wfExpr o && isJsIdent p
  | .notE e => wfExpr e
  | .seqE a b => wfExpr a && wfExpr b

/-- Well-formedness of an object-literal field list. -/
def wfFields : JsFields → Bool
  | .nil => true
  | .cons k v rest => isJsPropKey k && wfExpr v && wfFields rest

/-- Well-formedness of an argument or element list. -/
def wfArgs : JsArgs → Bool
  | .nil => true
  | .cons h t => wfExpr h && wfArgs t

end

/-- Syntactic well-formedness of a statement: bound and declared names are
legal identifiers, module sources are nonempty, imported name lists are
nonempty and pairwise distinct, and contained expressions are well-formed. -/
def wfStmt : JsStmt → Bool
  | .importNamed names src =>
      !names.isEmpty && names.all isJsIdent && distinctStrings names && !src.isEmpty
  | .importDefault n src => isJsIdent n && !src.isEmpty
  | .constDecl n v => isJsIdent n && wfExpr v
  | .exportConst n v => isJsIdent n && wfExpr v
  | .exportDefault v => wfExpr v
  | .exprStmt v => wfExpr v

/-- Names a statement introduces into the snippet scope. -/
def declaredNames : JsStmt → List String
  | .importNamed names _ => names
  | .importDefault n _ => [n]
  | .constDecl n _ => [n]
  | .exportConst n _ => [n]
  | .exportDefault _ => []
  | .exprStmt _ => []

/-- A well-formed snippet: every statement is well-formed and the names the
snippet declares are pairwise distinct. -/
def wfSnippet (stmts : List JsStmt) : Bool :=
  stmts.all wfStmt && distinctStrings (stmts.map declaredNames).flatten

/-- The normalized state shape from the State Structure example, lines
21-29: the users slice with its byId table (string keys 1 and 2) and its
allIds array. -/
def normalizedStateExpr : JsExpr :=
  .objLit (.cons "users"
    (.objLit (.cons "byId"
      (.objLit (.cons "1"
        (.objLit (.cons "id" (.strLit "1") (.cons "name" (.strLit "John") .nil)))
        (.cons "2"
          (.objLit (.cons "id" (.strLit "2") (.cons "name" (.strLit "Jane") .nil)))
          .nil)))
      (.cons "allIds" (.arrLit (.cons (.strLit "1") (.cons (.strLit "2") .nil)))
        .nil)))
    .nil)

/-- The Actions example, lines 40-47: the ADD_TODO constant and the addTodo
action creator returning an object literal. -/
def actionsSnippet : List JsStmt :=
  [ .exportConst "ADD_TODO" (.strLit "ADD_TODO"),
    .exportConst "addTodo"
      (.arrow ["text"]
        (.objLit (.cons "type" (.ident "ADD_TODO")
          (.cons "payload" (.ident "text") .nil)))) ]

/-- The Reducers example, lines 58-67: combineReducers over the todos and
users slice reducers, exporting rootReducer as default. -/
def reducersSnippet : List JsStmt :=
  [ .importNamed ["combineReducers"] "redux",
    .importDefault "todosReducer" "./todosReducer",
    .importDefault "usersReducer" "./usersReducer",
    .constDecl "rootReducer"
      (.call (.ident "combineReducers")
        (.cons (.objLit (.cons "todos" (.ident "todosReducer")
          (.cons "users" (.ident "usersReducer") .nil))) .nil)),
    .exportDefault (.ident "rootReducer") ]

/-- The Store example, lines 78-82: createStore applied to the root reducer
and the thunk middleware enhancer. -/
def storeSnippet : List JsStmt :=
  [ .importNamed ["createStore", "applyMiddleware"] "redux",
    .importDefault "rootReducer" "./reducers",
    .importDefault "thunk" "redux-thunk",
    .constDecl "store"
      (.call (.ident "createStore")
        (.cons (.ident "rootReducer")
          (.cons (.call (.ident "applyMiddleware") (.cons (.ident "thunk") .nil))
            .nil))) ]

/-- The Middleware example, lines 93-96: the curried logging middleware whose
body logs the action and returns next(action). -/
def loggerSnippet : List JsStmt :=
  [ .constDecl "logger"
      (.arrow ["store"] (.arrow ["next"] (.arrow ["action"]
        (.seqE
          (.call (.member (.ident "console") "log")
            (.cons (.strLit "Dispatching:") (.cons (.ident "action") .nil)))
          (.call (.ident "next") (.cons (.ident "action") .nil)))))) ]

/-- The Connecting Components example, lines 107-116: mapStateToProps,
mapDispatchToProps (shorthand object), and the connected default export. -/
def connectSnippet : List JsStmt :=
  [ .importNamed ["connect"] "react-redux",
    .importNamed ["addTodo"] "./actions",
    .constDecl "mapStateToProps"
      (.arrow ["state"]
        (.objLit (.cons "todos" (.member (.ident "state") "todos") .nil))),
    .constDecl "mapDispatchToProps"
      (.objLit (.cons "addTodo" (.ident "addTodo") .nil)),
    .exportDefault
      (.call
        (.call (.ident "connect")
          (.cons (.ident "mapStateToProps")
            (.cons (.ident "mapDispatchToProps") .nil)))
        (.cons (.ident "MyComponent") .nil)) ]

/-- The Selectors example, lines 127-134: getTodos and the memoized
getVisibleTodos built with createSelector over a filter of uncompleted
todos. -/
def selectorsSnippet : List JsStmt :=
  [ .importNamed ["createSelector"] "reselect",
    .constDecl "getTodos" (.arrow ["state"] (.member (.ident "state") "todos")),
    .exportConst "getVisibleTodos"
      (.call (.ident "createSelector")
        (.cons (.arrLit (.cons (.ident "getTodos") .nil))
          (.cons
            (.arrow ["todos"]
              (.call (.member (.ident "todos") "filter")
                (.cons
                  (.arrow ["todo"] (.notE (.member (.ident "todo") "completed")))
                  .nil)))
            .nil))) ]

/-- The Testing example, lines 147-155: the addTodo action creator test whose
arrow body binds expectedAction and asserts
expect(addTodo(...)).toEqual(expectedAction). -/
def testingSnippet : List JsStmt :=
  [ .importNamed ["addTodo"] "./actions",
    .exprStmt
      (.call (.ident "test")
        (.cons (.strLit "addTodo action creator")
          (.cons
            (.arrow []
              (.letConst "expectedAction"
                (.objLit (.cons "type" (.ident "ADD_TODO")
                  (.cons "payload" (.strLit "Learn Redux") .nil)))
                (.call
                  (.member
                    (.call (.ident "expect")
                      (.cons
                        (.call (.ident "addTodo")
                          (.cons (.strLit "Learn Redux") .nil))
                        .nil))
                    "toEqual")
                  (.cons (.ident "expectedAction") .nil))))
            .nil))) ]

/-- The eight embedded code examples of the file, in file order: the
normalized state shape (a bare object expression, wrapped as an expression
statement), addTodo, rootReducer, store creation, logger, connect usage,
getVisibleTodos, and the addTodo test. -/
def embeddedExamples : List (List JsStmt) :=
  [ [.exprStmt normalizedStateExpr],
    actionsSnippet,
    reducersSnippet,
    storeSnippet,
    loggerSnippet,
    connectSnippet,
    selectorsSnippet,
    testingSnippet ]

/-- Claim C1 counterexample: as stated, the claim asserts that every line of
the file lies inside a comment; line 2 of the file (index 1) is a blank
separator line between the opening line comment and the first block
comment, so it lies inside no comment. -/
theorem line_two_is_blank_not_comment :
    fileLineKinds[1]? = some LineKind.blank ∧
    fileLineKinds.all isCommentLine = false := by
  constructor
  · rfl
  · rfl

/-- Claim C1 (amended): every line of `src/reduxBestPractices.js` is blank or
lies inside a comment (163 lines, none of them code), the module defines no
top-level binding, exports nothing, and evaluating it executes no item:
its shallow embedding is the empty (unit) program. -/
theorem module_is_pure_documentation :
    fileLineKinds.length = 163 ∧
    fileLineKinds.all isCommentOrBlank = true ∧
    reduxBestPracticesItems.filter isExecutableItem = [] ∧
    definedBindings reduxBestPracticesItems = [] ∧
    moduleExports reduxBestPracticesItems = [] := by
  refine ⟨?_, ?_, ?_, ?_, ?_⟩ <;> rfl

/-- Claim C3: evaluating (importing) the module has no runtime behavior:
for every starting world, running all module items returns the world
unchanged — no console output, no bindings, no raised errors. -/
theorem evaluating_module_preserves_world (w : World) :
    runModule reduxBestPracticesItems w = w := rfl

/-- Claim C3 witness: the preservation theorem applied at the empty world. -/
theorem evaluating_module_preserves_world_witness :
    runModule reduxBestPracticesItems ⟨[], [], []⟩ = ⟨[], [], []⟩ :=
  evaluating_module_preserves_world ⟨[], [], []⟩

/-- Claim C4: evaluating the module never throws (fallible evaluation
succeeds with unit), and no item of the module is executable at all, so no
code path of the repository produces an error condition. -/
theorem module_never_errors :
    evalModuleE reduxBestPracticesItems = Except.ok () ∧
    reduxBestPracticesItems.filter isExecutableItem = [] ∧
    reduxBestPracticesItems.all evalItemOk = true := by
  refine ⟨?_, ?_, ?_⟩ <;> rfl

/-- Claim C7: no invariant is defined or enforced by this codebase: the
module binds and exports no name at all, hence exposes no operation that
could validate, constrain, or reject a state value; every item is a
comment. -/
theorem no_invariant_enforcing_operation :
    definedBindings reduxBestPracticesItems = [] ∧
    moduleExports reduxBestPracticesItems = [] ∧
    reduxBestPracticesItems.all isCommentItem = true := by
  refine ⟨?_, ?_, ?_⟩ <;> rfl

/-- Claim C5: for every string text, addTodo(text) is the record whose type
field is the constant ADD_TODO (the string ADD_TODO) and whose payload
field is text; at the embedded test input, addTodo applied to Learn Redux
equals the expected action of the Testing example. -/
theorem addTodo_returns_type_and_payload (text : String) :
    addTodo text = { type := ADD_TODO, payload := text } ∧
    ADD_TODO = "ADD_TODO" ∧
    addTodo "Learn Redux" = { type := ADD_TODO, payload := "Learn Redux" } :=
  ⟨rfl, rfl, rfl⟩

/-- Claim C5 witness: the theorem applied at the test input string. -/
theorem addTodo_returns_type_and_payload_witness :
    addTodo "Learn Redux" = { type := ADD_TODO, payload := "Learn Redux" } :=
  (addTodo_returns_type_and_payload "Learn Redux").2.2

/-- Claim C6: getVisibleTodos derives its value from the todos field of the
state only: two states with equal todos fields (however their users slices
differ) yield equal selector results. -/
theorem getVisibleTodos_depends_only_on_todos
    (s1 s2 : AppState) (h : s1.todos = s2.todos) :
    getVisibleTodos s1 = getVisibleTodos s2 := by
  simp only [getVisibleTodos, createSelector, getTodos, h]

/-- Claim C6 witness: two concrete states sharing a todos list but with
different users slices; the theorem yields equal selector results. -/
theorem getVisibleTodos_depends_only_on_todos_witness :
    (AppState.todos ⟨[⟨"Learn Redux", false⟩], ⟨[], []⟩⟩ =
      AppState.todos ⟨[⟨"Learn Redux", false⟩], exampleUsers⟩) ∧
    getVisibleTodos ⟨[⟨"Learn Redux", false⟩], ⟨[], []⟩⟩ =
      getVisibleTodos ⟨[⟨"Learn Redux", false⟩], exampleUsers⟩ :=
  ⟨rfl, getVisibleTodos_depends_only_on_todos
    ⟨[⟨"Learn Redux", false⟩], ⟨[], []⟩⟩
    ⟨[⟨"Learn Redux", false⟩], exampleUsers⟩ rfl⟩

/-- Claim C8: apart from the log it records, the logging middleware is the
identity on the dispatch chain: its value is exactly next(action), the
action passed through unmodified, and its log is the single console.log
entry for that action. -/
theorem logger_is_identity_on_dispatch
    {σ α β : Type} (store : σ) (next : α → β) (action : α) :
    (logger store next action).value = next action ∧
    (logger store next action).log = [("Dispatching:", action)] :=
  ⟨rfl, rfl⟩

/-- Claim C8 witness: the theorem applied at a concrete store, next and
action. -/
theorem logger_is_identity_on_dispatch_witness :
    (logger (0 : Nat) Nat.succ 5).value = Nat.succ 5 :=
  (logger_is_identity_on_dispatch (0 : Nat) Nat.succ 5).1

/-- Claim C9: getVisibleTodos returns exactly the elements of state.todos
whose completed field is false, in their original order: it equals the
filter of state.todos by that predicate and is a sublist of state.todos
(so the retained elements keep their order, and state.todos itself is
untouched). -/
theorem getVisibleTodos_filters_uncompleted (s : AppState) :
    getVisibleTodos s = s.todos.filter (fun t => t.completed = false) ∧
    List.Sublist (getVisibleTodos s) s.todos := by
  have hfun : (fun (t : Todo) => !t.completed) = fun t => decide (t.completed = false) := by
    funext t
    cases t.completed <;> rfl
  constructor
  · simp only [getVisibleTodos, createSelector, getTodos, hfun]
  · simp only [getVisibleTodos, createSelector, getTodos]
    exact List.filter_sublist _

/-- Claim C9 witness: the theorem applied at a concrete two-element state;
the completed todo is dropped, the uncompleted one kept. -/
theorem getVisibleTodos_filters_uncompleted_witness :
    getVisibleTodos ⟨[⟨"a", false⟩, ⟨"b", true⟩], exampleUsers⟩ =
      List.filter (fun t => t.completed = false) [⟨"a", false⟩, ⟨"b", true⟩] ∧
    List.Sublist (getVisibleTodos ⟨[⟨"a", false⟩, ⟨"b", true⟩], exampleUsers⟩)
      [⟨"a", false⟩, ⟨"b", true⟩] :=
  getVisibleTodos_filters_uncompleted ⟨[⟨"a", false⟩, ⟨"b", true⟩], exampleUsers⟩

/-- Claim C10: the concrete normalized example satisfies the normalization
invariant it illustrates: allIds lists exactly the keys of byId (the ids 1
and 2, in order), and each record stored under a key has its id field
equal to that key. -/
theorem normalized_example_satisfies_invariant :
    exampleUsers.allIds = exampleUsers.byId.map Prod.fst ∧
    exampleUsers.byId.all (fun p => p.2.id == p.1) = true ∧
    exampleUsers.allIds = ["1", "2"] := by
  refine ⟨?_, ?_, ?_⟩ <;> rfl

/-- Claim C2: every embedded code example of the file admits a shallow
embedding as a well-formed term: all eight snippets (the normalized state
shape, addTodo, rootReducer, store creation, logger, connect usage,
getVisibleTodos, and the addTodo test) pass the syntactic well-formedness
checker. -/
theorem embedded_examples_well_formed :
    embeddedExamples.all wfSnippet = true ∧ embeddedExamples.length = 8 := by
  exact ⟨by decide, rfl⟩

end Redux
